import Mathlib

/-!
Verification of the model-configuration registry and resolver of
`src/mflux/config/model_config.py`.

The Python module defines a class `ModelConfig` (plain attribute storage),
a static registry `AVAILABLE_MODELS` (an insertion-ordered dict of twelve
records, all with `base_model = None`), and a static resolver
`ModelConfig.from_name(model_name, base_model)` that returns an exact
registry match, synthesizes a record from an inferred or hinted base, or
raises `InvalidBaseModel` / `ModelConfigError`.

The embedding below is a direct translation: Python strings become `String`,
`None`-able attributes become `Option`, the dict becomes an association list
in declaration order, Python truthiness of an optional string becomes
`strTruthy`, the substring operator `in` becomes `strContains`, the stable
`sorted(..., key=lambda x: x.priority)` becomes a stable insertion sort by
`priority`, and the two exception types become constructors of `MfluxError`
(each carrying the data its Python message interpolates).
-/

/-- The `ModelConfig` record: one field per constructor parameter of the
Python class `ModelConfig.__init__`. -/
structure ModelConfig where
  «alias» : Option String
  model_name : String
  base_model : Option String
  controlnet_model : Option String
  num_train_steps : Nat
  max_sequence_length : Nat
  supports_guidance : Bool
  requires_sigma_shift : Bool
  priority : Nat
deriving DecidableEq, Repr

/-- The errors `from_name` can raise.  The Python classes live in
`mflux/error/error.py`; here each constructor carries the data its message
interpolates: `invalidBaseModel` carries the `allowed_names` list of
`"Invalid base_model. Choose one of {allowed_names}"`, and
`modelConfigError` carries the model name of
`"Cannot infer base_model from {model_name}"`.  `attributeError` marks the
spot where the Python code would dereference `None` (unreachable after hint
validation). -/
inductive MfluxError where
  | invalidBaseModel (allowed_names : List (Option String))
  | modelConfigError (model_name : String)
  | attributeError
deriving DecidableEq, Repr

/-- Registry record keyed `"schnell"`. -/
def schnell : ModelConfig where
  «alias» := some "schnell"
  model_name := "black-forest-labs/FLUX.1-schnell"
  base_model := none
  controlnet_model := none
  num_train_steps := 1000
  max_sequence_length := 256
  supports_guidance := false
  requires_sigma_shift := false
  priority := 2

/-- Registry record keyed `"dev"`. -/
def dev : ModelConfig where
  «alias» := some "dev"
  model_name := "black-forest-labs/FLUX.1-dev"
  base_model := none
  controlnet_model := none
  num_train_steps := 1000
  max_sequence_length := 512
  supports_guidance := true
  requires_sigma_shift := true
  priority := 1

/-- Registry record keyed `"dev-fill"`. -/
def dev_fill : ModelConfig where
  «alias» := some "dev-fill"
  model_name := "black-forest-labs/FLUX.1-Fill-dev"
  base_model := none
  controlnet_model := none
  num_train_steps := 1000
  max_sequence_length := 512
  supports_guidance := true
  requires_sigma_shift := true
  priority := 0

/-- Registry record keyed `"dev-depth"`. -/
def dev_depth : ModelConfig where
  «alias» := some "dev-depth"
  model_name := "black-forest-labs/FLUX.1-Depth-dev"
  base_model := none
  controlnet_model := none
  num_train_steps := 1000
  max_sequence_length := 512
  supports_guidance := true
  requires_sigma_shift := true
  priority := 4

/-- Registry record keyed `"dev-redux"`. -/
def dev_redux : ModelConfig where
  «alias» := some "dev-redux"
  model_name := "black-forest-labs/FLUX.1-Redux-dev"
  base_model := none
  controlnet_model := none
  num_train_steps := 1000
  max_sequence_length := 512
  supports_guidance := true
  requires_sigma_shift := true
  priority := 3

/-- Registry record keyed `"dev-controlnet-canny"`. -/
def dev_controlnet_canny : ModelConfig where
  «alias» := some "dev-controlnet-canny"
  model_name := "black-forest-labs/FLUX.1-dev"
  base_model := none
  controlnet_model := some "InstantX/FLUX.1-dev-Controlnet-Canny"
  num_train_steps := 1000
  max_sequence_length := 512
  supports_guidance := true
  requires_sigma_shift := true
  priority := 5

/-- Registry record keyed `"schnell-controlnet-canny"`. -/
def schnell_controlnet_canny : ModelConfig where
  «alias» := some "schnell-controlnet-canny"
  model_name := "black-forest-labs/FLUX.1-schnell"
  base_model := none
  controlnet_model := some "InstantX/FLUX.1-dev-Controlnet-Canny"
  num_train_steps := 1000
  max_sequence_length := 256
  supports_guidance := false
  requires_sigma_shift := false
  priority := 6

/-- Registry record keyed `"dev-controlnet-upscaler"`. -/
def dev_controlnet_upscaler : ModelConfig where
  «alias» := some "dev-controlnet-upscaler"
  model_name := "black-forest-labs/FLUX.1-dev"
  base_model := none
  controlnet_model := some "jasperai/Flux.1-dev-Controlnet-Upscaler"
  num_train_steps := 1000
  max_sequence_length := 512
  supports_guidance := false
  requires_sigma_shift := false
  priority := 7

/-- Registry record keyed `"xulf-s"`. -/
def xulf_s : ModelConfig where
  «alias» := some "xulf-s"
  model_name := "cocktailpeanut/xulf-s"
  base_model := none
  controlnet_model := none
  num_train_steps := 1000
  max_sequence_length := 256
  supports_guidance := false
  requires_sigma_shift := false
  priority := 9

/-- Registry record keyed `"xulf-d"`.  NOTE: its `alias` is `"f-lite"`,
not `"xulf-d"` — this is literal source data. -/
def xulf_d : ModelConfig where
  «alias» := some "f-lite"
  model_name := "cocktailpeanut/xulf-d"
  base_model := none
  controlnet_model := none
  num_train_steps := 1000
  max_sequence_length := 512
  supports_guidance := true
  requires_sigma_shift := true
  priority := 8

/-- Registry record keyed `"f-lite"`. -/
def f_lite : ModelConfig where
  «alias» := some "f-lite"
  model_name := "Freepik/flux.1-lite-8B"
  base_model := none
  controlnet_model := none
  num_train_steps := 1000
  max_sequence_length := 512
  supports_guidance := true
  requires_sigma_shift := true
  priority := 10

/-- Registry record keyed `"shuttle-3"`. -/
def shuttle_3 : ModelConfig where
  «alias» := some "shuttle-3"
  model_name := "shuttleai/shuttle-3-diffusion"
  base_model := none
  controlnet_model := none
  num_train_steps := 1000
  max_sequence_length := 256
  supports_guidance := false
  requires_sigma_shift := false
  priority := 11

/-- The registry dict `AVAILABLE_MODELS`, as an association list in its
Python declaration (= iteration) order. -/
def AVAILABLE_MODELS : List (String × ModelConfig) :=
  [("schnell", schnell),
   ("dev", dev),
   ("dev-fill", dev_fill),
   ("dev-depth", dev_depth),
   ("dev-redux", dev_redux),
   ("dev-controlnet-canny", dev_controlnet_canny),
   ("schnell-controlnet-canny", schnell_controlnet_canny),
   ("dev-controlnet-upscaler", dev_controlnet_upscaler),
   ("xulf-s", xulf_s),
   ("xulf-d", xulf_d),
   ("f-lite", f_lite),
   ("shuttle-3", shuttle_3)]

/-- `AVAILABLE_MODELS.values()`: the registry records in declaration order. -/
def registry_records : List ModelConfig := AVAILABLE_MODELS.map Prod.snd

/-- Python truthiness of an optional string: `None` and `""` are falsy. -/
def strTruthy : Option String → Bool
  | none => false
  | some s => !(s == "")

/-- Bool test that `sub` is an initial segment of `cs`. -/
def charsStartWith : List Char → List Char → Bool
  | _, [] => true
  | [], _ :: _ => false
  | c :: cs, d :: ds => c == d && charsStartWith cs ds

/-- Bool test that `sub` occurs contiguously in `hay`. -/
def charsContain : List Char → List Char → Bool
  | [], sub => sub.isEmpty
  | c :: t, sub => charsStartWith (c :: t) sub || charsContain t sub

/-- The Python substring operator: `strContains hay sub` is `sub in hay`. -/
def strContains (hay sub : String) : Bool :=
  charsContain hay.toList sub.toList

/-- Step 0 of `from_name`: all base models (records with `base_model = None`)
stably sorted by ascending `priority`.  Python `sorted` is a stable sort, so
a stable insertion sort by `priority` computes the same list. -/
def base_models : List ModelConfig :=
  List.insertionSort (fun a b => a.priority ≤ b.priority)
    ((AVAILABLE_MODELS.map Prod.snd).filter (fun m => m.base_model == none))

/-- Step 1 of `from_name`: the first base model whose `alias` or full
`model_name` equals `model_name` (Python `model_name in (base.alias,
base.model_name)`; comparing a string against a `None` alias is `False`). -/
def exact_match (model_name : String) : Option ModelConfig :=
  base_models.find?
    (fun base => base.alias == some model_name || base.model_name == model_name)

/-- Step 2 of `from_name`: the `allowed_names` list, `[base.alias,
base.model_name]` for each base model in priority order. -/
def allowed_names : List (Option String) :=
  base_models.flatMap (fun base => [base.alias, some base.model_name])

/-- Step 3, hint branch: the first base model whose `alias` or `model_name`
equals the explicit `base_model` string. -/
def find_by_hint (base_model : Option String) : Option ModelConfig :=
  base_models.find? (fun b => b.alias == base_model || some b.model_name == base_model)

/-- Step 3, inference branch: the first base model whose truthy `alias` is a
substring of `model_name` (Python `b.alias and b.alias in model_name`). -/
def find_by_substring (model_name : String) : Option ModelConfig :=
  base_models.find?
    (fun b => strTruthy b.alias && strContains model_name (b.alias.getD ""))

/-- Step 4 of `from_name`: the synthesized record — `model_name` is the
requested name, every other field is copied from the selected base. -/
def synthesized (model_name : String) (default_base : ModelConfig) : ModelConfig where
  «alias» := default_base.alias
  model_name := model_name
  base_model := some default_base.model_name
  controlnet_model := default_base.controlnet_model
  num_train_steps := default_base.num_train_steps
  max_sequence_length := default_base.max_sequence_length
  supports_guidance := default_base.supports_guidance
  requires_sigma_shift := default_base.requires_sigma_shift
  priority := default_base.priority

/-- `ModelConfig.from_name(model_name, base_model)`: exact match, hint
validation (skipped for a falsy hint), base selection by hint or by
substring inference, then synthesis. -/
def ModelConfig.from_name (model_name : String) (base_model : Option String) :
    Except MfluxError ModelConfig :=
  match exact_match model_name with
  | some base => Except.ok base
  | none =>
    if strTruthy base_model && !(allowed_names.contains base_model) then
      Except.error (MfluxError.invalidBaseModel allowed_names)
    else if strTruthy base_model then
      match find_by_hint base_model with
      | some default_base => Except.ok (synthesized model_name default_base)
      | none => Except.error MfluxError.attributeError
    else
      match find_by_substring model_name with
      | some default_base => Except.ok (synthesized model_name default_base)
      | none => Except.error (MfluxError.modelConfigError model_name)

/-- `ModelConfig.x_embedder_input_dim`. -/
def ModelConfig.x_embedder_input_dim (self : ModelConfig) : Nat :=
  if self.alias == some "dev-fill" then 384
  else if self.alias == some "dev-depth" then 128
  else 64

/-- `ModelConfig.is_canny`. -/
def ModelConfig.is_canny (self : ModelConfig) : Bool :=
  self.alias == some "dev-controlnet-canny" || self.alias == some "schnell-controlnet-canny"

/-- Equality of resolver outcomes is decidable. -/
instance exceptDecEq {ε α : Type} [DecidableEq ε] [DecidableEq α] :
    DecidableEq (Except ε α) := fun x y =>
  match x, y with
  | .ok a, .ok b =>
      if h : a = b then isTrue (by rw [h])
      else isFalse (by intro he; cases he; exact h rfl)
  | .error a, .error b =>
      if h : a = b then isTrue (by rw [h])
      else isFalse (by intro he; cases he; exact h rfl)
  | .ok _, .error _ => isFalse (by intro h; cases h)
  | .error _, .ok _ => isFalse (by intro h; cases h)

/-- The registry records in ascending `priority` order (priorities are the
pairwise-distinct values 0–11, so this order is unique). -/
def sorted_base_models : List ModelConfig :=
  [dev_fill, dev, schnell, dev_redux, dev_depth, dev_controlnet_canny,
   schnell_controlnet_canny, dev_controlnet_upscaler, xulf_d, xulf_s,
   f_lite, shuttle_3]

/-- The `allowed_names` enumeration spelled out: each base model's `alias`
and `model_name`, in ascending priority order. -/
def allowed_enumeration : List (Option String) :=
  [some "dev-fill", some "black-forest-labs/FLUX.1-Fill-dev",
   some "dev", some "black-forest-labs/FLUX.1-dev",
   some "schnell", some "black-forest-labs/FLUX.1-schnell",
   some "dev-redux", some "black-forest-labs/FLUX.1-Redux-dev",
   some "dev-depth", some "black-forest-labs/FLUX.1-Depth-dev",
   some "dev-controlnet-canny", some "black-forest-labs/FLUX.1-dev",
   some "schnell-controlnet-canny", some "black-forest-labs/FLUX.1-schnell",
   some "dev-controlnet-upscaler", some "black-forest-labs/FLUX.1-dev",
   some "f-lite", some "cocktailpeanut/xulf-d",
   some "xulf-s", some "cocktailpeanut/xulf-s",
   some "f-lite", some "Freepik/flux.1-lite-8B",
   some "shuttle-3", some "shuttleai/shuttle-3-diffusion"]

/-! ## General facts about the embedded definitions -/

/-- The registry values in declaration order, spelled out. -/
theorem registry_records_eq :
    registry_records = [schnell, dev, dev_fill, dev_depth, dev_redux,
      dev_controlnet_canny, schnell_controlnet_canny, dev_controlnet_upscaler,
      xulf_s, xulf_d, f_lite, shuttle_3] := rfl

/-- Step 0 computes `sorted_base_models`. -/
theorem base_models_eq : base_models = sorted_base_models := by decide

/-- Every element of `base_models` is a registry record with `base_model = None`. -/
theorem base_models_mem_registry :
    ∀ b ∈ base_models, b ∈ registry_records ∧ b.base_model = none := by decide

/-- Every registry record with `base_model = None` is in `base_models`. -/
theorem mem_base_models :
    ∀ b ∈ registry_records, b.base_model = none → b ∈ base_models := by decide

/-- `base_models` is ascending in `priority`. -/
theorem base_models_sorted :
    base_models.Pairwise (fun a b => a.priority ≤ b.priority) := by decide

/-- The `allowed_names` list of step 2 is the explicit enumeration. -/
theorem allowed_names_eq : allowed_names = allowed_enumeration := by decide

/-- In a `Pairwise R` list, the element `find?` returns is related by `R` to
every other element satisfying the predicate. -/
theorem find?_first_le {α : Type} {R : α → α → Prop} {p : α → Bool} :
    ∀ {l : List α}, l.Pairwise R → ∀ {b : α}, l.find? p = some b →
      ∀ b' ∈ l, p b' = true → b = b' ∨ R b b' := by
  intro l
  induction l with
  | nil => intro _ b h; simp at h
  | cons a t ih =>
    intro hpw b hfind b' hmem hpb'
    rw [List.pairwise_cons] at hpw
    cases hpa : p a with
    | true =>
      rw [List.find?_cons_of_pos _ hpa] at hfind
      cases hfind
      rcases List.mem_cons.mp hmem with rfl | hmem'
      · exact Or.inl rfl
      · exact Or.inr (hpw.1 b' hmem')
    | false =>
      rw [List.find?_cons_of_neg _ (by simp [hpa])] at hfind
      rcases List.mem_cons.mp hmem with rfl | hmem'
      · rw [hpa] at hpb'; cases hpb'
      · exact ih hpw.2 hfind b' hmem' hpb'

/-- On an exact match, `from_name` returns the matched base record for any
hint, valid or not: hint validation is behind the exact-match check. -/
theorem from_name_eq_exact (q : String) (hint : Option String) (b : ModelConfig)
    (h : exact_match q = some b) :
    ModelConfig.from_name q hint = Except.ok b := by
  unfold ModelConfig.from_name
  rw [h]

/-- With no exact match, `from_name` reduces to validation plus selection. -/
theorem from_name_not_exact (q : String) (hint : Option String)
    (h : exact_match q = none) :
    ModelConfig.from_name q hint =
      if strTruthy hint && !(allowed_names.contains hint) then
        Except.error (MfluxError.invalidBaseModel allowed_names)
      else if strTruthy hint then
        match find_by_hint hint with
        | some default_base => Except.ok (synthesized q default_base)
        | none => Except.error MfluxError.attributeError
      else
        match find_by_substring q with
        | some default_base => Except.ok (synthesized q default_base)
        | none => Except.error (MfluxError.modelConfigError q) := by
  unfold ModelConfig.from_name
  rw [h]

/-- With no exact match and a falsy hint, `from_name` reduces to substring
inference. -/
theorem from_name_no_hint (q : String) (h : exact_match q = none) :
    ModelConfig.from_name q none =
      match find_by_substring q with
      | some default_base => Except.ok (synthesized q default_base)
      | none => Except.error (MfluxError.modelConfigError q) := by
  rw [from_name_not_exact q none h]
  rfl

/-- A truthy hint is a nonempty string. -/
theorem strTruthy_of_ne (s : String) (hs : s ≠ "") : strTruthy (some s) = true := by
  simp [strTruthy, hs]

/-- With no exact match and a nonempty hint absent from `allowed_names`,
`from_name` raises `InvalidBaseModel` carrying `allowed_names`. -/
theorem from_name_invalid_hint (q s : String) (hs : s ≠ "")
    (h : exact_match q = none) (hinvalid : allowed_names.contains (some s) = false) :
    ModelConfig.from_name q (some s) =
      Except.error (MfluxError.invalidBaseModel allowed_names) := by
  rw [from_name_not_exact q (some s) h, hinvalid, strTruthy_of_ne s hs]
  rfl

/-- With no exact match and a nonempty hint present in `allowed_names`,
`from_name` reduces to hint-based selection. -/
theorem from_name_hint_branch (q s : String) (hs : s ≠ "")
    (h : exact_match q = none) (hvalid : allowed_names.contains (some s) = true) :
    ModelConfig.from_name q (some s) =
      match find_by_hint (some s) with
      | some default_base => Except.ok (synthesized q default_base)
      | none => Except.error MfluxError.attributeError := by
  rw [from_name_not_exact q (some s) h, hvalid, strTruthy_of_ne s hs]
  rfl

/-! ## The claims -/

/-- C1 as stated is false: the registry entry keyed `"f-lite"` is a base
record (`base_model = None`) with alias `"f-lite"`, yet `from_name("f-lite")`
returns the entry keyed `"xulf-d"` — a different record that carries the
same alias with lower priority (8 vs 10) — not the `"f-lite"` record. -/
theorem claim_C1_counterexample :
    f_lite ∈ registry_records ∧ f_lite.base_model = none ∧
    f_lite.alias = some "f-lite" ∧
    ModelConfig.from_name "f-lite" none = Except.ok xulf_d ∧
    xulf_d ≠ f_lite := by decide

/-- C1 amended: for every registry entry B with `base_model = None`,
`from_name(B.alias)` and `from_name(B.model_name)` (no hint) each return a
base record unchanged, and that record is B itself whenever no
lower-priority base shares the queried identifier.  The exceptions forced by
the shared identifiers in the source data: alias `"f-lite"` resolves to the
`xulf-d` record (priority 8) rather than the `f-lite` record (priority 10),
and the duplicated model names `black-forest-labs/FLUX.1-dev` /
`-schnell` resolve to the `dev` / `schnell` records rather than the
controlnet variants that also carry them. -/
theorem claim_C1 :
    (∀ B ∈ registry_records, B.base_model = none → B ≠ f_lite →
      ModelConfig.from_name (B.alias.getD "") none = Except.ok B) ∧
    (∀ B ∈ registry_records, B.base_model = none →
      B ≠ dev_controlnet_canny → B ≠ schnell_controlnet_canny →
      B ≠ dev_controlnet_upscaler →
      ModelConfig.from_name B.model_name none = Except.ok B) ∧
    ModelConfig.from_name "f-lite" none = Except.ok xulf_d ∧
    ModelConfig.from_name "Freepik/flux.1-lite-8B" none = Except.ok f_lite ∧
    ModelConfig.from_name "black-forest-labs/FLUX.1-dev" none = Except.ok dev ∧
    ModelConfig.from_name "black-forest-labs/FLUX.1-schnell" none =
      Except.ok schnell := by decide

/-- C1 witness: the amended statement evaluated at the `dev` alias and the
`dev-fill` full model name. -/
theorem claim_C1_witness :
    ModelConfig.from_name "dev" none = Except.ok dev ∧
    ModelConfig.from_name "black-forest-labs/FLUX.1-Fill-dev" none =
      Except.ok dev_fill :=
  ⟨claim_C1.1 dev (by decide) (by decide) (by decide),
   claim_C1.2.1 dev_fill (by decide) (by decide) (by decide) (by decide)
     (by decide)⟩

/-- C6 as stated is false: the entries keyed `"xulf-d"` and `"f-lite"` are
distinct registry entries whose records both carry alias `"f-lite"`. -/
theorem claim_C6_counterexample :
    ("xulf-d", xulf_d) ∈ AVAILABLE_MODELS ∧
    ("f-lite", f_lite) ∈ AVAILABLE_MODELS ∧
    ("xulf-d", xulf_d) ≠ ("f-lite", f_lite) ∧
    xulf_d.alias = some "f-lite" ∧ f_lite.alias = some "f-lite" := by decide

/-- C6 amended: alias values of distinct registry entries are pairwise
different, except that the entries keyed `"xulf-d"` and `"f-lite"` share the
alias `"f-lite"` (the data-quality divergence the spec flags as an open
question). -/
theorem claim_C6 :
    ∀ p1 ∈ AVAILABLE_MODELS, ∀ p2 ∈ AVAILABLE_MODELS,
      p1 ≠ p2 → p1.2.alias ≠ none → p1.2.alias = p2.2.alias →
      p1.2.alias = some "f-lite" := by decide

/-- C6 witness: the amended statement evaluated at the one colliding pair. -/
theorem claim_C6_witness :
    (("xulf-d", xulf_d) : String × ModelConfig).2.alias = some "f-lite" :=
  claim_C6 ("xulf-d", xulf_d) (by decide) ("f-lite", f_lite) (by decide)
    (by decide) (by decide) (by decide)

/-- C8: for every record (registry entry or synthesized),
`x_embedder_input_dim` is 384 for alias `"dev-fill"`, 128 for alias
`"dev-depth"`, and 64 for every other alias value, including `None`. -/
theorem claim_C8 (c : ModelConfig) :
    (c.alias = some "dev-fill" → ModelConfig.x_embedder_input_dim c = 384) ∧
    (c.alias = some "dev-depth" → ModelConfig.x_embedder_input_dim c = 128) ∧
    (c.alias ≠ some "dev-fill" → c.alias ≠ some "dev-depth" →
      ModelConfig.x_embedder_input_dim c = 64) := by
  unfold ModelConfig.x_embedder_input_dim
  refine ⟨fun h => ?_, fun h => ?_, fun h1 h2 => ?_⟩
  · rw [h]; rfl
  · rw [h]; rfl
  · have h1f : (c.alias == some "dev-fill") = false := by simpa using h1
    have h2f : (c.alias == some "dev-depth") = false := by simpa using h2
    rw [h1f, h2f]; rfl

/-- C8 witness: the three branches evaluated at the `dev-fill`, `dev-depth`
and `dev` registry records and at a synthesized record. -/
theorem claim_C8_witness :
    ModelConfig.x_embedder_input_dim dev_fill = 384 ∧
    ModelConfig.x_embedder_input_dim dev_depth = 128 ∧
    ModelConfig.x_embedder_input_dim dev = 64 ∧
    ModelConfig.x_embedder_input_dim (synthesized "my-custom-schnell" schnell) = 64 :=
  ⟨(claim_C8 dev_fill).1 (by decide), (claim_C8 dev_depth).2.1 (by decide),
   (claim_C8 dev).2.2 (by decide) (by decide),
   (claim_C8 (synthesized "my-custom-schnell" schnell)).2.2 (by decide)
     (by decide)⟩

/-- C10: an empty-string hint is falsy in Python, so `from_name` with hint
`""` takes exactly the same path as with no hint at all — validation is
skipped (never `InvalidBaseModel`), substring inference runs, and the
inference failure raises `ModelConfigError`. -/
theorem claim_C10 (model_name : String) :
    ModelConfig.from_name model_name (some "") =
      ModelConfig.from_name model_name none := rfl

/-- C10 witness: the equation at a name with no exact match, no alias
substring: both calls raise the inference error, never `InvalidBaseModel`. -/
theorem claim_C10_witness :
    ModelConfig.from_name "unmatchable" (some "") =
      ModelConfig.from_name "unmatchable" none ∧
    ModelConfig.from_name "unmatchable" (some "") =
      Except.error (MfluxError.modelConfigError "unmatchable") :=
  ⟨claim_C10 "unmatchable", by decide⟩

/-- C2: when there is no exact match and `from_name` returns a record, that
record was synthesized from a selected base model: `model_name` is the
requested name, `base_model` is the selected base's `model_name`, and
`alias`, `controlnet_model`, `num_train_steps`, `max_sequence_length`,
`supports_guidance`, `requires_sigma_shift` and `priority` are all copied
from the selected base. -/
theorem claim_C2 (model_name : String) (hint : Option String) (result : ModelConfig)
    (hnotexact : exact_match model_name = none)
    (hok : ModelConfig.from_name model_name hint = Except.ok result) :
    ∃ b, b ∈ registry_records ∧ b.base_model = none ∧
      result.model_name = model_name ∧
      result.alias = b.alias ∧
      result.base_model = some b.model_name ∧
      result.controlnet_model = b.controlnet_model ∧
      result.num_train_steps = b.num_train_steps ∧
      result.max_sequence_length = b.max_sequence_length ∧
      result.supports_guidance = b.supports_guidance ∧
      result.requires_sigma_shift = b.requires_sigma_shift ∧
      result.priority = b.priority := by
  rw [from_name_not_exact model_name hint hnotexact] at hok
  split at hok
  · simp at hok
  · split at hok
    · split at hok
      · rename_i d hfind
        obtain ⟨hmem, hbase⟩ :=
          base_models_mem_registry d (List.mem_of_find?_eq_some hfind)
        injection hok with hr
        subst hr
        exact ⟨d, hmem, hbase, rfl, rfl, rfl, rfl, rfl, rfl, rfl, rfl, rfl⟩
      · simp at hok
    · split at hok
      · rename_i d hfind
        obtain ⟨hmem, hbase⟩ :=
          base_models_mem_registry d (List.mem_of_find?_eq_some hfind)
        injection hok with hr
        subst hr
        exact ⟨d, hmem, hbase, rfl, rfl, rfl, rfl, rfl, rfl, rfl, rfl, rfl⟩
      · simp at hok

/-- C2 witness: the synthesis evaluated at `"my-custom-dev"` with no hint,
where the inferred base is `dev`. -/
theorem claim_C2_witness :
    exact_match "my-custom-dev" = none ∧
    ∃ b, b ∈ registry_records ∧ b.base_model = none ∧
      (synthesized "my-custom-dev" dev).model_name = "my-custom-dev" ∧
      (synthesized "my-custom-dev" dev).alias = b.alias ∧
      (synthesized "my-custom-dev" dev).base_model = some b.model_name ∧
      (synthesized "my-custom-dev" dev).controlnet_model = b.controlnet_model ∧
      (synthesized "my-custom-dev" dev).num_train_steps = b.num_train_steps ∧
      (synthesized "my-custom-dev" dev).max_sequence_length = b.max_sequence_length ∧
      (synthesized "my-custom-dev" dev).supports_guidance = b.supports_guidance ∧
      (synthesized "my-custom-dev" dev).requires_sigma_shift = b.requires_sigma_shift ∧
      (synthesized "my-custom-dev" dev).priority = b.priority :=
  ⟨by decide, claim_C2 "my-custom-dev" none (synthesized "my-custom-dev" dev)
    (by decide) (by decide)⟩

/-- C3: with no hint and no exact match, the returned record is synthesized
from a base record whose alias is a nonempty substring of the requested name
and whose priority is minimal among all such base records.  Registry
priorities are pairwise distinct (first conjunct), so minimal priority
coincides with "first in ascending priority order" and the stable tie-break
is vacuous; `from_name` is a pure function, so the selection is identical on
every call. -/
theorem claim_C3 (model_name : String) (result : ModelConfig)
    (hnotexact : exact_match model_name = none)
    (hok : ModelConfig.from_name model_name none = Except.ok result) :
    (registry_records.map (fun b => b.priority)).Nodup ∧
    ∃ b, b ∈ registry_records ∧ b.base_model = none ∧
      result = synthesized model_name b ∧
      (∃ a, b.alias = some a ∧ a ≠ "" ∧ strContains model_name a = true) ∧
      (∀ b' ∈ registry_records, b'.base_model = none →
        ∀ a, b'.alias = some a → a ≠ "" → strContains model_name a = true →
          b.priority ≤ b'.priority) := by
  refine ⟨by decide, ?_⟩
  rw [from_name_no_hint model_name hnotexact] at hok
  split at hok
  · rename_i b hfind
    injection hok with hr
    subst hr
    obtain ⟨hmem, hbase⟩ :=
      base_models_mem_registry b (List.mem_of_find?_eq_some hfind)
    have hpred := List.find?_some hfind
    rw [Bool.and_eq_true] at hpred
    obtain ⟨ht, hc⟩ := hpred
    refine ⟨b, hmem, hbase, rfl, ?_, ?_⟩
    · cases halias : b.alias with
      | none => rw [halias] at ht; simp [strTruthy] at ht
      | some a =>
        rw [halias] at ht hc
        exact ⟨a, rfl, by simpa [strTruthy] using ht, by simpa using hc⟩
    · intro b' hmem' hbase' a' halias' hne' hcon'
      have hmemb' : b' ∈ base_models := mem_base_models b' hmem' hbase'
      have hp' : (strTruthy b'.alias &&
          strContains model_name (b'.alias.getD "")) = true := by
        rw [halias']
        simp [strTruthy, hne', hcon']
      rcases find?_first_le base_models_sorted hfind b' hmemb' hp' with rfl | hle
      · exact le_refl _
      · exact hle
  · cases hok

/-- C3 witness: `"custom-dev-fill-x"` contains both alias `"dev"` (priority
1) and alias `"dev-fill"` (priority 0); the lower-priority base `dev-fill`
is selected. -/
theorem claim_C3_witness :
    (registry_records.map (fun b => b.priority)).Nodup ∧
    ∃ b, b ∈ registry_records ∧ b.base_model = none ∧
      synthesized "custom-dev-fill-x" dev_fill =
        synthesized "custom-dev-fill-x" b ∧
      (∃ a, b.alias = some a ∧ a ≠ "" ∧
        strContains "custom-dev-fill-x" a = true) ∧
      (∀ b' ∈ registry_records, b'.base_model = none →
        ∀ a, b'.alias = some a → a ≠ "" →
          strContains "custom-dev-fill-x" a = true →
          b.priority ≤ b'.priority) :=
  claim_C3 "custom-dev-fill-x" (synthesized "custom-dev-fill-x" dev_fill)
    (by decide) (by decide)

/-- C4 as stated is false for the empty-string hint: `""` is supplied and
equals no base model's alias or model name, yet Python truthiness skips
validation, so `from_name("custom", "")` raises the inference error
`ModelConfigError`, not `InvalidBaseModel`. -/
theorem claim_C4_counterexample :
    exact_match "custom" = none ∧
    (∀ b ∈ registry_records, b.base_model = none →
      b.alias ≠ some "" ∧ b.model_name ≠ "") ∧
    ModelConfig.from_name "custom" (some "") =
      Except.error (MfluxError.modelConfigError "custom") := by decide

/-- C4 amended: if the requested name is not an exact match and a
**nonempty** hint is supplied that equals no base model's alias and no base
model's model name, `from_name` raises `InvalidBaseModel` carrying exactly
the `allowed_enumeration` list — each base's alias and model name in
ascending priority order — identically on every such call. -/
theorem claim_C4 (model_name hint : String) (hne : hint ≠ "")
    (hnotexact : exact_match model_name = none)
    (hinvalid : ∀ b ∈ registry_records, b.base_model = none →
      b.alias ≠ some hint ∧ b.model_name ≠ hint) :
    ModelConfig.from_name model_name (some hint) =
      Except.error (MfluxError.invalidBaseModel allowed_enumeration) := by
  have hnotmem : some hint ∉ allowed_names := by
    intro hmem
    have hmem2 : some hint ∈ base_models.flatMap
        (fun base => [base.alias, some base.model_name]) := hmem
    rcases List.mem_flatMap.mp hmem2 with ⟨b, hb, hin⟩
    obtain ⟨hmemr, hbase⟩ := base_models_mem_registry b hb
    obtain ⟨ha, hn⟩ := hinvalid b hmemr hbase
    simp at hin
    rcases hin with h1 | h2
    · exact ha h1.symm
    · exact hn h2.symm
  have hcont : allowed_names.contains (some hint) = false := by simp [hnotmem]
  rw [from_name_invalid_hint model_name hint hne hnotexact hcont,
    allowed_names_eq]

/-- C4 witness: the spec's own example, `resolve("custom",
base_model_hint="not-a-real-model")`. -/
theorem claim_C4_witness :
    ModelConfig.from_name "custom" (some "not-a-real-model") =
      Except.error (MfluxError.invalidBaseModel allowed_enumeration) :=
  claim_C4 "custom" "not-a-real-model" (by decide) (by decide) (by decide)

/-- C5: if the requested name is not an exact match, no hint is given, and
no base model's alias is a substring of the name, `from_name` raises
`ModelConfigError` carrying the unresolvable name, and that error is a
distinct kind from `InvalidBaseModel`.  The Python error class definitions
(`mflux/error/error.py`) are outside the provided source; the spec's "two
distinct, catchable error kinds" is modelled by the two distinct
constructors of `MfluxError`. -/
theorem claim_C5 (model_name : String)
    (hnotexact : exact_match model_name = none)
    (hnosub : ∀ b ∈ registry_records, b.base_model = none →
      ∀ a ∈ b.alias, strContains model_name a = false) :
    ModelConfig.from_name model_name none =
      Except.error (MfluxError.modelConfigError model_name) ∧
    (∀ allowed, MfluxError.modelConfigError model_name ≠
      MfluxError.invalidBaseModel allowed) := by
  refine ⟨?_, fun allowed h => MfluxError.noConfusion h⟩
  rw [from_name_no_hint model_name hnotexact]
  have hfind : find_by_substring model_name = none := by
    unfold find_by_substring
    rw [List.find?_eq_none]
    intro b hb
    obtain ⟨hmemr, hbase⟩ := base_models_mem_registry b hb
    cases halias : b.alias with
    | none => simp [strTruthy]
    | some a =>
      have hca := hnosub b hmemr hbase a (Option.mem_def.mpr halias)
      simp [hca]
  rw [hfind]

/-- C5 witness: the spec's own example, `resolve("unrecognizable-name")`. -/
theorem claim_C5_witness :
    ModelConfig.from_name "unrecognizable-name" none =
      Except.error (MfluxError.modelConfigError "unrecognizable-name") :=
  (claim_C5 "unrecognizable-name" (by decide) (by decide)).1

/-- C7: with no exact match and a validated nonempty hint, the selected base
is one whose alias or model name **equals** the hint, with minimal priority
among all such bases (priorities are distinct, so it is the first in
priority order); substring matching against the requested name plays no
role in the selection. -/
theorem claim_C7 (model_name hint : String)
    (hnotexact : exact_match model_name = none)
    (hne : hint ≠ "")
    (hvalid : some hint ∈ allowed_names) :
    ∃ b, ModelConfig.from_name model_name (some hint) =
        Except.ok (synthesized model_name b) ∧
      b ∈ registry_records ∧ b.base_model = none ∧
      (b.alias = some hint ∨ b.model_name = hint) ∧
      (∀ b' ∈ registry_records, b'.base_model = none →
        (b'.alias = some hint ∨ b'.model_name = hint) →
          b.priority ≤ b'.priority) := by
  have hcont : allowed_names.contains (some hint) = true := by simp [hvalid]
  have hsome : (find_by_hint (some hint)).isSome = true := by
    unfold find_by_hint
    rw [List.find?_isSome]
    have hmem2 : some hint ∈ base_models.flatMap
        (fun base => [base.alias, some base.model_name]) := hvalid
    rcases List.mem_flatMap.mp hmem2 with ⟨b, hb, hin⟩
    refine ⟨b, hb, ?_⟩
    simp at hin
    rcases hin with h1 | h2
    · simp [h1.symm]
    · simp [h2.symm]
  obtain ⟨b, hfind⟩ := Option.isSome_iff_exists.mp hsome
  have hpred := List.find?_some hfind
  obtain ⟨hmem, hbase⟩ :=
    base_models_mem_registry b (List.mem_of_find?_eq_some hfind)
  rw [Bool.or_eq_true] at hpred
  have hbdisj : b.alias = some hint ∨ b.model_name = hint := by
    rcases hpred with h | h
    · exact Or.inl (by simpa using h)
    · exact Or.inr (by simpa using h)
  refine ⟨b, ?_, hmem, hbase, hbdisj, ?_⟩
  · rw [from_name_hint_branch model_name hint hne hnotexact hcont, hfind]
  · intro b' hmem' hbase' hdisj'
    have hmemb' : b' ∈ base_models := mem_base_models b' hmem' hbase'
    have hp' : (b'.alias == some hint || some b'.model_name == some hint) = true := by
      rcases hdisj' with h | h <;> simp [h]
    rcases find?_first_le base_models_sorted hfind b' hmemb' hp' with rfl | hle
    · exact le_refl _
    · exact hle

/-- C7 witness: the spec's own example, `resolve("custom",
base_model_hint="dev")` selects the base whose alias is exactly `"dev"`. -/
theorem claim_C7_witness :
    (∃ b, ModelConfig.from_name "custom" (some "dev") =
        Except.ok (synthesized "custom" b) ∧
      b ∈ registry_records ∧ b.base_model = none ∧
      (b.alias = some "dev" ∨ b.model_name = "dev") ∧
      (∀ b' ∈ registry_records, b'.base_model = none →
        (b'.alias = some "dev" ∨ b'.model_name = "dev") →
          b.priority ≤ b'.priority)) ∧
    ModelConfig.from_name "custom" (some "dev") =
      Except.ok (synthesized "custom" dev) :=
  ⟨claim_C7 "custom" "dev" (by decide) (by decide) (by decide), by decide⟩

/-- C9 as stated is false for the same shared-alias reason as C1: with the
invalid hint `"not-a-real-model"`, `from_name(f_lite.alias, hint)` does not
raise (exact match precedes hint validation, as the claim says) but it
returns the `xulf-d` record, not the `f-lite` record. -/
theorem claim_C9_counterexample :
    f_lite ∈ registry_records ∧ f_lite.base_model = none ∧
    f_lite.alias = some "f-lite" ∧
    (∀ b ∈ registry_records, b.base_model = none →
      b.alias ≠ some "not-a-real-model" ∧ b.model_name ≠ "not-a-real-model") ∧
    ModelConfig.from_name "f-lite" (some "not-a-real-model") = Except.ok xulf_d ∧
    xulf_d ≠ f_lite := by decide

/-- C9 amended: exact match comes first in the resolver's total order of
checks — for every base record B and **every** hint (valid, invalid or
absent), `from_name(B.alias, hint)` raises no error and returns the
exact-match result, ignoring the hint entirely; that result is B itself for
every B except the `f-lite` record, whose shared alias resolves to the
lower-priority `xulf-d` record. -/
theorem claim_C9 (hint : Option String) :
    ∀ B ∈ registry_records, B.base_model = none →
      (B.alias ≠ some "f-lite" →
        ModelConfig.from_name (B.alias.getD "") hint = Except.ok B) ∧
      (B.alias = some "f-lite" →
        ModelConfig.from_name (B.alias.getD "") hint = Except.ok xulf_d) := by
  intro B hB
  rw [registry_records_eq] at hB
  fin_cases hB <;> intro _ <;>
    first
      | exact ⟨fun h => from_name_eq_exact _ hint _ (by decide),
               fun h => absurd h (by decide)⟩
      | exact ⟨fun h => absurd rfl h,
               fun h => from_name_eq_exact _ hint _ (by decide)⟩

/-- C9 witness: `from_name("schnell", "not-a-real-model")` returns the
`schnell` base record and raises no error despite the invalid hint. -/
theorem claim_C9_witness :
    ModelConfig.from_name "schnell" (some "not-a-real-model") =
      Except.ok schnell :=
  (claim_C9 (some "not-a-real-model") schnell (by decide) (by decide)).1
    (by decide)
